import Mathlib

/-!
# Verification of the 3CX CDR client's real-time channel and paginated query cache

This development embeds the two core mechanisms of the client into Lean:

* the **Live Update Channel** (`RealtimeProvider` in `src/contexts/AuthContext.tsx`):
  connection lifecycle, message dispatch, reconnect backoff, and the
  token-change effect;
* the **Paginated Query Cache** (`CallLogsPage.tsx` and the area-codes page):
  cache-key construction, TTL reads, insertion-order eviction, background
  prefetching, and the foreground/background fetch paths.

JavaScript `Map` objects are embedded as insertion-ordered association lists,
JS numbers used for timestamps as `Int`, and the asynchronous remote call as an
explicit `Except` parameter describing the outcome the `await` would observe.
Each claim about the system is then proved or refuted against these definitions.
-/

namespace Realtime

/-- The connection status union `'connecting' | 'connected' | 'disconnected' | 'error'`. -/
inductive ConnectionStatus where
  | connecting
  | connected
  | disconnected
  | error
  deriving DecidableEq, Repr

/-- One row of `areaCodeDistribution` in `DashboardData`. -/
structure AreaCodeDist where
  areaCode : String
  count : Int
  totalCost : Int
  totalDuration : Int
  percentage : Int
  deriving DecidableEq, Repr

/-- One row of `extensionDistribution` in `DashboardData`. -/
structure ExtensionDist where
  extension : String
  count : Int
  incomingCalls : Int
  outgoingCalls : Int
  totalDuration : Int
  percentage : Int
  deriving DecidableEq, Repr

/-- The `summary` field of `DashboardData`. -/
structure DashboardSummary where
  totalCalls : Int
  incomingCalls : Int
  outgoingCalls : Int
  uniqueAreaCodes : Int
  uniqueExtensions : Int
  totalCost : Int
  totalDuration : Int
  avgDuration : Int
  incomingPercentage : Int
  outgoingPercentage : Int
  deriving DecidableEq, Repr

/-- The `DashboardData` snapshot pushed over the channel, replaced wholesale. -/
structure DashboardData where
  summary : DashboardSummary
  areaCodeDistribution : List AreaCodeDist
  extensionDistribution : List ExtensionDist
  deriving DecidableEq, Repr

/-- The `type` discriminator of a `RealtimeMessage`; any tag other than the
three known ones falls into the handler's `default` case. -/
inductive MessageType where
  | connected
  | heartbeat
  | dashboardUpdate
  | unknown (tag : String)
  deriving DecidableEq, Repr

/-- An inbound push message (`RealtimeMessage` in the source): `data` is an
optional `DashboardData`, `timestamp` a string, plus diagnostic fields. -/
structure RealtimeMessage where
  type : MessageType
  data : Option DashboardData
  timestamp : String
  connectionId : Option String
  collection : Option String
  deriving DecidableEq, Repr

/-- A live `EventSource`: the handle records the `collection` and `token`
query parameters the stream URL was opened with. -/
structure EventSourceHandle where
  collection : String
  token : String
  deriving DecidableEq, Repr

/-- A pending reconnect timer (`reconnectTimeoutRef`): the delay it was
scheduled with and the collection its callback will pass to `connect`. -/
structure PendingReconnect where
  delay : Nat
  collection : String
  deriving DecidableEq, Repr

/-- The provider state: React state (`isConnected`, `dashboardData`,
`lastUpdate`, `connectionStatus`), the refs (`eventSourceRef`,
`reconnectTimeoutRef`, `currentCollectionRef`, `reconnectAttemptsRef`) and the
auth token read from the auth context. -/
structure RTState where
  token : Option String
  isConnected : Bool
  dashboardData : Option DashboardData
  lastUpdate : Option String
  connectionStatus : ConnectionStatus
  eventSource : Option EventSourceHandle
  reconnectTimeout : Option PendingReconnect
  currentCollection : Option String
  reconnectAttempts : Nat
  deriving DecidableEq, Repr

/-- The constant `maxReconnectAttempts = 5`. -/
def maxReconnectAttempts : Nat := 5

/-- The `disconnect()` operation: close the event source if any, clear any
pending reconnect timer, reset `isConnected`, `connectionStatus`, the tracked
collection and the attempt counter. -/
def disconnect (s : RTState) : RTState :=
  { s with
    eventSource := none
    reconnectTimeout := none
    isConnected := false
    connectionStatus := .disconnected
    currentCollection := none
    reconnectAttempts := 0 }

/-- The `connect(collection)` operation: no-op without a token; no-op when an
event source exists for the same collection and `isConnected` holds;
otherwise disconnect first, record the collection, set status `connecting`
and open a new `EventSource` parameterized by the collection and token. -/
def connect (s : RTState) (collection : String) : RTState :=
  match s.token with
  | none => s
  | some tok =>
    if s.eventSource.isSome && (s.currentCollection == some collection) && s.isConnected then
      s
    else
      let s1 := disconnect s
      { s1 with
        currentCollection := some collection
        connectionStatus := .connecting
        eventSource := some ⟨collection, tok⟩ }

/-- The `eventSource.onopen` handler. -/
def onopen (s : RTState) : RTState :=
  { s with isConnected := true, connectionStatus := .connected, reconnectAttempts := 0 }

/-- The `eventSource.onmessage` handler: dispatch on `message.type`;
`dashboard-update` replaces the snapshot and timestamp only when
`message.data` is present; all other tags leave the state unchanged. -/
def onmessage (s : RTState) (message : RealtimeMessage) : RTState :=
  match message.type with
  | .connected => s
  | .heartbeat => s
  | .dashboardUpdate =>
    match message.data with
    | some d => { s with dashboardData := some d, lastUpdate := some message.timestamp }
    | none => s
  | .unknown _ => s

/-- The `eventSource.onerror` handler, whose closure captured `collection`
from the enclosing `connect` call: mark disconnected/error, and either
schedule a reconnect with delay `min(1000 * 2^attempts, 30000)` or, when the
attempt ceiling is reached, settle the status to `disconnected`. -/
def onerror (s : RTState) (collection : String) : RTState :=
  let s1 := { s with isConnected := false, connectionStatus := .error }
  if s1.reconnectAttempts < maxReconnectAttempts then
    { s1 with
      reconnectTimeout :=
        some ⟨Nat.min (1000 * 2 ^ s1.reconnectAttempts) 30000, collection⟩ }
  else
    { s1 with connectionStatus := .disconnected }

/-- Firing of the pending reconnect timer: its callback increments
`reconnectAttemptsRef` and calls `connect` with the captured collection. -/
def reconnectTimerFire (s : RTState) : RTState :=
  match s.reconnectTimeout with
  | none => s
  | some t => connect { s with reconnectAttempts := s.reconnectAttempts + 1 } t.collection

/-- The `useEffect` on `[token]`: with a token and a tracked collection,
`connect` to it; with no token, force `disconnect`. -/
def tokenChangeEffect (s : RTState) (newToken : Option String) : RTState :=
  match newToken, s.currentCollection with
  | some t, some c => connect { s with token := some t } c
  | some t, none => { s with token := some t }
  | none, _ => disconnect { s with token := none }

/-- A state connected to `c` with token `tok`: the state reached after a
successful `connect c` followed by `onopen`. -/
def connectedState (c tok : String) : RTState :=
  { token := some tok
    isConnected := true
    dashboardData := none
    lastUpdate := none
    connectionStatus := .connected
    eventSource := some ⟨c, tok⟩
    reconnectTimeout := none
    currentCollection := some c
    reconnectAttempts := 0 }

/-- One transport-error cycle: the `onerror` handler fires, then the reconnect
timer it scheduled fires. -/
def errorCycle (c : String) (s : RTState) : RTState :=
  reconnectTimerFire (onerror s c)

/-- A state holding no auth token. -/
def noTokenState : RTState :=
  { token := none
    isConnected := false
    dashboardData := none
    lastUpdate := none
    connectionStatus := .disconnected
    eventSource := none
    reconnectTimeout := none
    currentCollection := none
    reconnectAttempts := 0 }

/-- A disconnected state that still holds a token. -/
def idleState (tok : String) : RTState :=
  { noTokenState with token := some tok }

/-- A sample pushed snapshot. -/
def sampleData : DashboardData :=
  { summary :=
      { totalCalls := 120, incomingCalls := 70, outgoingCalls := 50
        uniqueAreaCodes := 12, uniqueExtensions := 8, totalCost := 33
        totalDuration := 5400, avgDuration := 45
        incomingPercentage := 58, outgoingPercentage := 42 }
    areaCodeDistribution := [⟨"212", 10, 3, 400, 8⟩]
    extensionDistribution := [⟨"101", 20, 12, 8, 900, 16⟩] }

end Realtime

namespace Pages

/-- Pagination metadata, always taken from the server response. -/
structure Pagination where
  currentPage : Int
  totalPages : Int
  totalCount : Int
  limit : Int
  hasNextPage : Bool
  hasPrevPage : Bool
  deriving DecidableEq, Repr

/-- One value stored in a page cache: the rows, the pagination metadata and
the `Date.now()` timestamp recorded when it was stored. -/
structure CacheEntry (ρ : Type) where
  data : List ρ
  pagination : Pagination
  timestamp : Int
  deriving DecidableEq, Repr

/-- A JavaScript `Map` with string keys, embedded as an insertion-ordered
association list: `set` of an existing key updates it in place, `set` of a
fresh key appends at the end. -/
abbrev JsMap (ρ : Type) := List (String × CacheEntry ρ)

/-- Embeds `Map.prototype.get`. -/
def jsGet (m : JsMap ρ) (k : String) : Option (CacheEntry ρ) :=
  (m.find? (fun e => e.1 == k)).map (·.2)

/-- Embeds `Map.prototype.has`. -/
def jsHas (m : JsMap ρ) (k : String) : Bool :=
  m.any (fun e => e.1 == k)

/-- Embeds `Map.prototype.set`: update in place when the key exists, append
when it is new. -/
def jsSet (m : JsMap ρ) (k : String) (v : CacheEntry ρ) : JsMap ρ :=
  if m.any (fun e => e.1 == k) then
    m.map (fun e => if e.1 == k then (k, v) else e)
  else
    m ++ [(k, v)]

/-- Embeds `Map.prototype.delete`: remove the (unique) entry with the given
key. -/
def jsDelete (m : JsMap ρ) (k : String) : JsMap ρ :=
  m.eraseP (fun e => e.1 == k)

/-- The `setPageCache` updater used by both `fetchCallLogs` and
`fetchAreaCodes`: copy the map, `set` the new entry, and if the size now
exceeds 50, delete the first key in insertion order
(`Array.from(newCache.keys())[0]`). -/
def cacheInsert (m : JsMap ρ) (k : String) (v : CacheEntry ρ) : JsMap ρ :=
  let newCache := jsSet m k v
  if newCache.length > 50 then
    match (newCache.map Prod.fst).head? with
    | some oldestKey => jsDelete newCache oldestKey
    | none => newCache
  else
    newCache

/-- The outcome of the awaited `dataService` call: `data` may be absent (the
source guards with `response.data || []`), `pagination` is taken from the
response. -/
structure RemoteResp (ρ : Type) where
  data : Option (List ρ)
  pagination : Pagination
  deriving DecidableEq, Repr

/-- Result of a fetch call: the post-call component state, the value the
function returns (`cached`, the fresh `cacheData`, or `null` on failure), and
whether the remote data service was actually called. -/
structure FetchOut (σ ρ : Type) where
  state : σ
  result : Option (CacheEntry ρ)
  remoteCalled : Bool
  deriving DecidableEq, Repr

/-- Render `${x}` for a nullable string (`null` prints as `"null"`). -/
def optStr (o : Option String) : String :=
  match o with
  | some s => s
  | none => "null"

/-- A sample pagination record. -/
def samplePagination : Pagination :=
  { currentPage := 1, totalPages := 4, totalCount := 400, limit := 100
    hasNextPage := true, hasPrevPage := false }

/-- A sample cache entry over `Nat` rows, written at time 0. -/
def sampleEntry : CacheEntry Nat :=
  { data := [7, 8, 9], pagination := samplePagination, timestamp := 0 }

/-- A 51-entry cache, used to exercise the eviction branch. -/
def bigCache : JsMap Nat :=
  (List.range 51).map (fun i => (toString i, sampleEntry))

end Pages

namespace CallLogs

open Pages

/-- The inputs `getCacheKey` closes over in `CallLogsPage`. -/
structure Params where
  pageSize : Int
  sortBy : String
  sortOrder : String
  searchTerm : String
  selectedDataSource : String
  filtersJson : String
  urlCallType : Option String
  deriving DecidableEq, Repr

/-- The `getCacheKey(page)` builder in `CallLogsPage`: the template string
`page-pageSize-sortBy-sortOrder-searchTerm-selectedDataSource-filters-urlCallType`. -/
def getCacheKey (ps : Params) (page : Int) : String :=
  toString page ++ "-" ++ toString ps.pageSize ++ "-" ++ ps.sortBy ++ "-" ++
    ps.sortOrder ++ "-" ++ ps.searchTerm ++ "-" ++ ps.selectedDataSource ++ "-" ++
    ps.filtersJson ++ "-" ++ optStr ps.urlCallType

/-- The `CallLogsPage` component state touched by the fetch logic: the visible
rows, pagination, initial-loading flag, the shared error slot (`setError` from
the data context), the page cache and the cache-key inputs. -/
structure State (ρ : Type) where
  callLogs : List ρ
  pagination : Pagination
  isInitialLoading : Bool
  errorSlot : Option String
  pageCache : JsMap ρ
  params : Params
  deriving DecidableEq, Repr

/-- The `fetchCallLogs(page, isBackground)` operation: serve a cache entry
younger than 300000 ms (writing it to visible state only in the foreground),
otherwise call the data service (`remote` is the outcome the `await`
observes, `now2` the `Date.now()` at store time), store the result through
the eviction updater, write visible state only in the foreground, and on
failure surface the error message and clear the loading flag only in the
foreground. -/
def fetchCallLogs (s : State ρ) (page : Int) (isBackground : Bool) (now : Int)
    (remote : Except (Option String) (RemoteResp ρ)) (now2 : Int) :
    FetchOut (State ρ) ρ :=
  let cacheKey := getCacheKey s.params page
  let doRemote : Unit → FetchOut (State ρ) ρ := fun _ =>
    let s1 := if !isBackground && s.callLogs.length == 0 then
        { s with isInitialLoading := true }
      else s
    match remote with
    | .ok response =>
      let cacheData : CacheEntry ρ :=
        { data := response.data.getD [], pagination := response.pagination, timestamp := now2 }
      let s2 := { s1 with pageCache := cacheInsert s1.pageCache cacheKey cacheData }
      if isBackground then
        { state := s2, result := some cacheData, remoteCalled := true }
      else
        { state := { s2 with
            callLogs := response.data.getD []
            pagination := response.pagination
            isInitialLoading := false }
          result := some cacheData
          remoteCalled := true }
    | .error msg =>
      if isBackground then
        { state := s1, result := none, remoteCalled := true }
      else
        { state := { s1 with
            errorSlot := some (msg.getD "Failed to fetch call logs")
            isInitialLoading := false }
          result := none
          remoteCalled := true }
  match jsGet s.pageCache cacheKey with
  | some cached =>
    if now - cached.timestamp < 300000 then
      if isBackground then
        { state := s, result := some cached, remoteCalled := false }
      else
        { state := { s with
            callLogs := cached.data
            pagination := cached.pagination
            isInitialLoading := false }
          result := some cached
          remoteCalled := false }
    else
      doRemote ()
  | none => doRemote ()

/-- The `prefetchPages(currentPage, totalPages)` operation: the candidate
pages `[current+1, current+2, current-1]` filtered to `(0, totalPages]`; for
each candidate (indexed in that filtered list) whose cache key is absent, a
background fetch is scheduled after `index * 100` ms. Returns the scheduled
(page, delay) pairs. -/
def prefetchPages (ps : Params) (pageCache : JsMap ρ) (currentPage totalPages : Int) :
    List (Int × Nat) :=
  let pagesToPrefetch := [currentPage + 1, currentPage + 2, currentPage - 1].filter
    (fun page => decide (page > 0) && decide (page ≤ totalPages))
  pagesToPrefetch.enum.filterMap (fun ip =>
    if jsHas pageCache (getCacheKey ps ip.2) then none
    else some (ip.2, ip.1 * 100))

/-- The `handlePageChange(page)` handler: on a cache entry younger than
300000 ms, swap the visible rows and pagination to it directly (and later
prefetch neighbours); otherwise fall back to a foreground `fetchCallLogs`. -/
def handlePageChange (s : State ρ) (page : Int) (now : Int)
    (remote : Except (Option String) (RemoteResp ρ)) (now2 : Int) :
    FetchOut (State ρ) ρ :=
  let cacheKey := getCacheKey s.params page
  match jsGet s.pageCache cacheKey with
  | some cached =>
    if now - cached.timestamp < 300000 then
      { state := { s with callLogs := cached.data, pagination := cached.pagination }
        result := some cached
        remoteCalled := false }
    else
      fetchCallLogs s page false now remote now2
  | none => fetchCallLogs s page false now remote now2

/-- The visible view state of the call-logs page: displayed rows, pagination
metadata, loading flag and the shared error slot. -/
def visibleView (s : State ρ) : List ρ × Pagination × Bool × Option String :=
  (s.callLogs, s.pagination, s.isInitialLoading, s.errorSlot)

/-- Sample cache-key inputs for the call-logs page. -/
def sampleParams : Params :=
  { pageSize := 100, sortBy := "startTime", sortOrder := "desc", searchTerm := ""
    selectedDataSource := "cdr", filtersJson := "nofilters", urlCallType := none }

/-- A call-logs state whose cache holds one entry, for page 1, written at
time 0. -/
def sampleState : State Nat :=
  { callLogs := []
    pagination := Pages.samplePagination
    isInitialLoading := true
    errorSlot := none
    pageCache := [(getCacheKey sampleParams 1, Pages.sampleEntry)]
    params := sampleParams }

/-- A call-logs state with no rows and an empty cache. -/
def emptyState : State Nat :=
  { callLogs := []
    pagination := Pages.samplePagination
    isInitialLoading := true
    errorSlot := none
    pageCache := []
    params := sampleParams }

/-- A cache holding (only) the entry for page 4 under the sample parameters. -/
def cacheWithPage4 : Pages.JsMap Nat :=
  [(getCacheKey sampleParams 4, Pages.sampleEntry)]

/-- The prefetch schedule as the claim states it: candidates are filtered to
the valid range and to the uncached ones first, and only then the i-th
scheduled candidate is delayed by `i * 100` ms. -/
def prefetchNeighborsClaim (ps : Params) (cache : Pages.JsMap ρ)
    (currentPage totalPages : Int) : List (Int × Nat) :=
  ((([currentPage + 1, currentPage + 2, currentPage - 1].filter
      (fun page => decide (1 ≤ page) && decide (page ≤ totalPages))).filter
      (fun page => !Pages.jsHas cache (getCacheKey ps page))).enum).map
    (fun ip => (ip.2, ip.1 * 100))

end CallLogs

namespace AreaCodes

open Pages

/-- The inputs `getCacheKey` closes over in the area-codes page (no page size;
an optional `state` URL filter instead of a call type). -/
structure Params where
  sortBy : String
  sortOrder : String
  searchTerm : String
  selectedDataSource : String
  filtersJson : String
  stateFilter : Option String
  deriving DecidableEq, Repr

/-- The `getCacheKey(page)` builder in the area-codes page: the template
string `page-sortBy-sortOrder-searchTerm-selectedDataSource-filters-stateFilter`. -/
def getCacheKey (ps : Params) (page : Int) : String :=
  toString page ++ "-" ++ ps.sortBy ++ "-" ++ ps.sortOrder ++ "-" ++
    ps.searchTerm ++ "-" ++ ps.selectedDataSource ++ "-" ++
    ps.filtersJson ++ "-" ++ optStr ps.stateFilter

/-- The area-codes page state touched by the fetch logic. Unlike
`CallLogsPage` it also carries an `isLoading` flag, cleared in the `finally`
of the fetch (and never set to `true` anywhere in the page). -/
structure State (ρ : Type) where
  areaCodes : List ρ
  pagination : Pagination
  isLoading : Bool
  isInitialLoading : Bool
  errorSlot : Option String
  pageCache : JsMap ρ
  params : Params
  deriving DecidableEq, Repr

/-- The `fetchAreaCodes(page, isBackground)` operation: a no-op returning
`null` without a selected data source; otherwise serve a cache entry younger
than 300000 ms, or call the data service, store through the eviction updater
and (foreground only) write visible state. The `catch` surfaces the error
message in the foreground without touching `isInitialLoading`; the `finally`
clears `isLoading` in the foreground. -/
def fetchAreaCodes (s : State ρ) (page : Int) (isBackground : Bool) (now : Int)
    (remote : Except (Option String) (RemoteResp ρ)) (now2 : Int) :
    FetchOut (State ρ) ρ :=
  if s.params.selectedDataSource == "" then
    { state := s, result := none, remoteCalled := false }
  else
    let cacheKey := getCacheKey s.params page
    let applyFinally : State ρ → State ρ := fun st =>
      if !isBackground then { st with isLoading := false } else st
    let doRemote : Unit → FetchOut (State ρ) ρ := fun _ =>
      let s1 := if !isBackground && s.areaCodes.length == 0 then
          { s with isInitialLoading := true }
        else s
      match remote with
      | .ok response =>
        let cacheData : CacheEntry ρ :=
          { data := response.data.getD [], pagination := response.pagination, timestamp := now2 }
        let s2 := { s1 with pageCache := cacheInsert s1.pageCache cacheKey cacheData }
        let s3 := if isBackground then s2 else
          { s2 with
            areaCodes := response.data.getD []
            pagination := response.pagination
            isInitialLoading := false }
        { state := applyFinally s3, result := some cacheData, remoteCalled := true }
      | .error msg =>
        let s2 := if isBackground then s1 else
          { s1 with errorSlot := some (msg.getD "Failed to load area code data") }
        { state := applyFinally s2, result := none, remoteCalled := true }
    match jsGet s.pageCache cacheKey with
    | some cached =>
      if now - cached.timestamp < 300000 then
        if isBackground then
          { state := s, result := some cached, remoteCalled := false }
        else
          { state := { s with
              areaCodes := cached.data
              pagination := cached.pagination
              isInitialLoading := false }
            result := some cached
            remoteCalled := false }
      else
        doRemote ()
    | none => doRemote ()

/-- The `prefetchPages(currentPage, totalPages)` operation in the area-codes
page: identical scheduling shape to the call-logs page over this page's cache
key. -/
def prefetchPages (ps : Params) (pageCache : JsMap ρ) (currentPage totalPages : Int) :
    List (Int × Nat) :=
  let pagesToPrefetch := [currentPage + 1, currentPage + 2, currentPage - 1].filter
    (fun p => decide (p > 0) && decide (p ≤ totalPages))
  pagesToPrefetch.enum.filterMap (fun ip =>
    if jsHas pageCache (getCacheKey ps ip.2) then none
    else some (ip.2, ip.1 * 100))

/-- The visible view state of the area-codes page: displayed rows, pagination
metadata, both loading flags and the shared error slot. -/
def visibleView (s : State ρ) : List ρ × Pagination × Bool × Bool × Option String :=
  (s.areaCodes, s.pagination, s.isLoading, s.isInitialLoading, s.errorSlot)

/-- Sample cache-key inputs for the area-codes page. -/
def sampleParams : Params :=
  { sortBy := "totalCalls", sortOrder := "desc", searchTerm := ""
    selectedDataSource := "cdr", filtersJson := "nofilters", stateFilter := none }

/-- An area-codes state with no rows yet and an empty cache. -/
def emptyState : State Nat :=
  { areaCodes := []
    pagination := Pages.samplePagination
    isLoading := false
    isInitialLoading := true
    errorSlot := none
    pageCache := []
    params := sampleParams }

end AreaCodes

namespace Pages

/-- A `Map.set` grows the map by at most one entry. -/
lemma jsSet_length_le (m : JsMap ρ) (k : String) (v : CacheEntry ρ) :
    (jsSet m k v).length ≤ m.length + 1 := by
  unfold jsSet
  split
  · simp only [List.length_map]
    omega
  · simp only [List.length_append, List.length_cons, List.length_nil]
    omega

/-- When an insertion pushes the map past 50 entries, the updater removes
exactly the first entry in insertion order: the result is the tail of the
post-`set` map. -/
lemma cacheInsert_overflow (m : JsMap ρ) (k : String) (v : CacheEntry ρ)
    (h : (jsSet m k v).length > 50) :
    cacheInsert m k v = (jsSet m k v).drop 1 := by
  simp only [cacheInsert]
  rw [if_pos h]
  cases hm : jsSet m k v with
  | nil => rw [hm] at h; simp at h
  | cons hd tl => simp [jsDelete]

/-- One `cacheInsert` step preserves the 50-entry bound. -/
lemma cacheInsert_length_le (m : JsMap ρ) (k : String) (v : CacheEntry ρ)
    (h : m.length ≤ 50) : (cacheInsert m k v).length ≤ 50 := by
  have hs := jsSet_length_le m k v
  by_cases hov : (jsSet m k v).length > 50
  · rw [cacheInsert_overflow m k v hov, List.length_drop]
    omega
  · simp only [cacheInsert]
    rw [if_neg hov]
    omega

/-- The pages scheduled by the prefetch loop are exactly the candidates the
cache-membership test rejects, in candidate order. -/
lemma sched_map_fst (f : Int → Bool) :
    ∀ (l : List Int) (n : Nat),
      ((l.enumFrom n).filterMap
          (fun ip => if f ip.2 then none else some (ip.2, ip.1 * 100))).map Prod.fst
        = l.filter (fun p => !f p) := by
  intro l
  induction l with
  | nil => intro n; rfl
  | cons a l ih =>
    intro n
    simp only [List.enumFrom_cons, List.filterMap_cons]
    cases hfa : f a <;> simp [hfa, ih]

/-- An element of `l.enumFrom n` is an (index, value) pair with the index
offset by `n`. -/
lemma mem_enumFrom_get {α : Type} :
    ∀ (l : List α) (n : Nat) (ip : Nat × α), ip ∈ l.enumFrom n →
      ∃ i, ip.1 = n + i ∧ l.get? i = some ip.2 := by
  intro l
  induction l with
  | nil => intro n ip h; simp at h
  | cons a l ih =>
    intro n ip h
    rw [List.enumFrom_cons] at h
    rcases List.mem_cons.mp h with heq | hmem
    · subst heq
      exact ⟨0, by omega, rfl⟩
    · obtain ⟨i, h1, h2⟩ := ih (n + 1) ip hmem
      exact ⟨i + 1, by omega, h2⟩

/-- Every scheduled (page, delay) pair comes from position `i` of the
candidate list, with delay `(n + i) * 100` and a failing cache-membership
test. -/
lemma sched_mem (f : Int → Bool) (l : List Int) (n : Nat) (pr : Int × Nat)
    (h : pr ∈ (l.enumFrom n).filterMap
        (fun ip => if f ip.2 then none else some (ip.2, ip.1 * 100))) :
    ∃ i, l.get? i = some pr.1 ∧ pr.2 = (n + i) * 100 ∧ f pr.1 = false := by
  obtain ⟨ip, hip, hg⟩ := List.mem_filterMap.mp h
  by_cases hf : f ip.2 = true
  · simp [hf] at hg
  · rw [if_neg hf] at hg
    obtain ⟨i, hi1, hi2⟩ := mem_enumFrom_get l n ip hip
    cases hg
    exact ⟨i, hi2, by omega, by simpa using hf⟩

end Pages

/-- C1. The claim predicts reconnect delays 1000, 2000, 4000, 8000, 16000 ms
and a terminal `disconnected` after 5 attempts. The code instead reschedules
every reconnect with delay 1000 ms and never exhausts the attempt budget: each
retry runs `connect`, which runs `disconnect`, which resets the attempt
counter to 0, so after an error following five full error/retry cycles the
handler still schedules a reconnect (delay 1000 ms) and leaves the status at
`error`, never settling to `disconnected`. -/
theorem realtime_backoff_counter_reset :
    (Realtime.onerror (Realtime.connectedState "calls" "tok") "calls").reconnectTimeout
        = some ⟨1000, "calls"⟩
  ∧ (Realtime.onerror
        (Realtime.errorCycle "calls" (Realtime.connectedState "calls" "tok")) "calls").reconnectTimeout
        = some ⟨1000, "calls"⟩
  ∧ ((Realtime.errorCycle "calls")^[5] (Realtime.connectedState "calls" "tok")).reconnectAttempts = 0
  ∧ (Realtime.onerror
        ((Realtime.errorCycle "calls")^[5] (Realtime.connectedState "calls" "tok")) "calls").reconnectTimeout
        = some ⟨1000, "calls"⟩
  ∧ (Realtime.onerror
        ((Realtime.errorCycle "calls")^[5] (Realtime.connectedState "calls" "tok")) "calls").connectionStatus
        = Realtime.ConnectionStatus.error := by
  decide

/-- C4. A `dashboard-update` message carrying a payload replaces the held
snapshot wholesale with that payload and records the message timestamp, and a
subsequent `heartbeat` changes nothing, so after the pair the held snapshot
equals the `dashboard-update` payload. -/
theorem dashboard_update_then_heartbeat (s : Realtime.RTState)
    (m1 m2 : Realtime.RealtimeMessage) (d : Realtime.DashboardData)
    (h1 : m1.type = .dashboardUpdate) (hd : m1.data = some d)
    (h2 : m2.type = .heartbeat) :
    Realtime.onmessage s m1
      = { s with dashboardData := some d, lastUpdate := some m1.timestamp }
  ∧ Realtime.onmessage (Realtime.onmessage s m1) m2 = Realtime.onmessage s m1
  ∧ (Realtime.onmessage (Realtime.onmessage s m1) m2).dashboardData = some d
  ∧ (Realtime.onmessage (Realtime.onmessage s m1) m2).lastUpdate = some m1.timestamp := by
  simp [Realtime.onmessage, h1, hd, h2]

/-- Witness for C4 at a concrete state and message pair. -/
theorem dashboard_update_then_heartbeat_witness :
    (Realtime.onmessage
      (Realtime.onmessage (Realtime.connectedState "calls" "tok")
        ⟨.dashboardUpdate, some Realtime.sampleData, "2026-01-01T00:00:00Z", none, none⟩)
      ⟨.heartbeat, none, "2026-01-01T00:00:05Z", none, none⟩).dashboardData
      = some Realtime.sampleData :=
  (dashboard_update_then_heartbeat (Realtime.connectedState "calls" "tok")
    ⟨.dashboardUpdate, some Realtime.sampleData, "2026-01-01T00:00:00Z", none, none⟩
    ⟨.heartbeat, none, "2026-01-01T00:00:05Z", none, none⟩
    Realtime.sampleData rfl rfl rfl).2.2.1

/-- C10. A `dashboard-update` message whose `data` field is absent leaves the
whole state unchanged: in particular neither the held snapshot nor the
last-update timestamp moves. -/
theorem dashboard_update_missing_data_noop (s : Realtime.RTState)
    (m : Realtime.RealtimeMessage)
    (ht : m.type = .dashboardUpdate) (hd : m.data = none) :
    Realtime.onmessage s m = s := by
  simp [Realtime.onmessage, ht, hd]

/-- Witness for C10 at a concrete state and message. -/
theorem dashboard_update_missing_data_noop_witness :
    Realtime.onmessage (Realtime.connectedState "calls" "tok")
      ⟨.dashboardUpdate, none, "2026-01-01T00:00:00Z", none, none⟩
      = Realtime.connectedState "calls" "tok" :=
  dashboard_update_missing_data_noop (Realtime.connectedState "calls" "tok")
    ⟨.dashboardUpdate, none, "2026-01-01T00:00:00Z", none, none⟩ rfl rfl

/-- C7. The token-change effect: when the token becomes absent, `disconnect`
is forced (subscription closed, pending timer cleared, status `disconnected`);
when a token becomes available while a collection is tracked (and the channel
is not currently connected), the channel reconnects: the same collection stays
tracked, the status moves to `connecting`, and a new subscription to that
collection with the new token is opened. -/
theorem token_change_effects (s : Realtime.RTState) (t c : String) :
    ((Realtime.tokenChangeEffect s none).connectionStatus = .disconnected
      ∧ (Realtime.tokenChangeEffect s none).eventSource = none
      ∧ (Realtime.tokenChangeEffect s none).isConnected = false
      ∧ (Realtime.tokenChangeEffect s none).reconnectTimeout = none)
  ∧ (s.currentCollection = some c → s.isConnected = false →
      (Realtime.tokenChangeEffect s (some t)).currentCollection = some c
      ∧ (Realtime.tokenChangeEffect s (some t)).connectionStatus = .connecting
      ∧ (Realtime.tokenChangeEffect s (some t)).eventSource = some ⟨c, t⟩) := by
  constructor
  · simp [Realtime.tokenChangeEffect, Realtime.disconnect]
  · intro hc hic
    simp [Realtime.tokenChangeEffect, Realtime.connect, Realtime.disconnect, hc, hic]

/-- Witness for C7: the token vanishing tears a connected channel down, and a
token arriving at a disconnected channel with a tracked collection reconnects
to it. -/
theorem token_change_effects_witness :
    (Realtime.tokenChangeEffect (Realtime.connectedState "calls" "tok") none).connectionStatus
      = .disconnected
  ∧ (Realtime.tokenChangeEffect
      { Realtime.idleState "old" with currentCollection := some "calls" }
      (some "fresh")).eventSource = some ⟨"calls", "fresh"⟩ :=
  ⟨(token_change_effects (Realtime.connectedState "calls" "tok") "tok" "calls").1.1,
   ((token_change_effects
      { Realtime.idleState "old" with currentCollection := some "calls" }
      "fresh" "calls").2 rfl rfl).2.2⟩

/-- C8. The `connect(collection)` semantics: with no token it is a pure
no-op; when an event source exists for the same collection and the channel is
connected it returns with no state change; otherwise it tears the existing
connection down via `disconnect` and opens a fresh subscription to the
collection with the held token, setting the status to `connecting`. -/
theorem connect_semantics (s : Realtime.RTState) (c tok : String) :
    (s.token = none → Realtime.connect s c = s)
  ∧ (s.token = some tok →
      (s.eventSource.isSome && (s.currentCollection == some c) && s.isConnected) = true →
      Realtime.connect s c = s)
  ∧ (s.token = some tok →
      (s.eventSource.isSome && (s.currentCollection == some c) && s.isConnected) = false →
      Realtime.connect s c =
        { Realtime.disconnect s with
            currentCollection := some c
            connectionStatus := .connecting
            eventSource := some ⟨c, tok⟩ }) := by
  refine ⟨fun h0 => ?_, fun h1 hg => ?_, fun h1 hg => ?_⟩
  · simp [Realtime.connect, h0]
  · simp [Realtime.connect, h1, hg]
  · simp [Realtime.connect, h1, hg]

/-- Witness for C8: the no-token no-op, the connected-to-same-collection
no-op, and the teardown-then-open path, each at a concrete state. -/
theorem connect_semantics_witness :
    Realtime.connect Realtime.noTokenState "calls" = Realtime.noTokenState
  ∧ Realtime.connect (Realtime.connectedState "calls" "tok") "calls"
      = Realtime.connectedState "calls" "tok"
  ∧ Realtime.connect (Realtime.idleState "tok") "calls"
      = { Realtime.disconnect (Realtime.idleState "tok") with
            currentCollection := some "calls"
            connectionStatus := .connecting
            eventSource := some ⟨"calls", "tok"⟩ } :=
  ⟨(connect_semantics Realtime.noTokenState "calls" "tok").1 rfl,
   (connect_semantics (Realtime.connectedState "calls" "tok") "calls" "tok").2.1 rfl (by decide),
   (connect_semantics (Realtime.idleState "tok") "calls" "tok").2.2 rfl (by decide)⟩

/-- C2. A stored cache entry older than the 5-minute TTL is never served: any
`fetchCallLogs` read (foreground or background) more than 300000 ms past the
entry's timestamp calls the remote service, and whenever `fetchCallLogs` or
`handlePageChange` completes without a remote call the entry's age was
strictly under 300000 ms. -/
theorem cache_ttl_read {ρ : Type} (s : CallLogs.State ρ) (page now now2 : Int)
    (remote : Except (Option String) (Pages.RemoteResp ρ)) (e : Pages.CacheEntry ρ)
    (hget : Pages.jsGet s.pageCache (CallLogs.getCacheKey s.params page) = some e) :
    (∀ isBackground, 300000 < now - e.timestamp →
        (CallLogs.fetchCallLogs s page isBackground now remote now2).remoteCalled = true)
  ∧ (∀ isBackground,
        (CallLogs.fetchCallLogs s page isBackground now remote now2).remoteCalled = false →
        now - e.timestamp < 300000)
  ∧ (300000 < now - e.timestamp →
        (CallLogs.handlePageChange s page now remote now2).remoteCalled = true)
  ∧ ((CallLogs.handlePageChange s page now remote now2).remoteCalled = false →
        now - e.timestamp < 300000) := by
  have main : ∀ b, ¬(now - e.timestamp < 300000) →
      (CallLogs.fetchCallLogs s page b now remote now2).remoteCalled = true := by
    intro b hnlt
    simp only [CallLogs.fetchCallLogs, hget]
    rw [if_neg hnlt]
    cases remote <;> cases b <;> rfl
  refine ⟨fun b hage => main b (by omega), fun b hrc => ?_, fun hage => ?_, fun hrc => ?_⟩
  · by_cases hlt : now - e.timestamp < 300000
    · exact hlt
    · exact absurd hrc (by simp [main b hlt])
  · simp only [CallLogs.handlePageChange, hget]
    rw [if_neg (by omega : ¬(now - e.timestamp < 300000))]
    exact main false (by omega)
  · by_cases hlt : now - e.timestamp < 300000
    · exact hlt
    · refine absurd hrc ?_
      simp only [CallLogs.handlePageChange, hget]
      rw [if_neg hlt]
      simp [main false hlt]

/-- Witness for C2: a stored entry written at time 0 is read at time 400000
(past the TTL) and the remote service is called. -/
theorem cache_ttl_read_witness :
    (CallLogs.fetchCallLogs CallLogs.sampleState 1 false 400000
        (Except.error none) 400000).remoteCalled = true :=
  (cache_ttl_read CallLogs.sampleState 1 400000 400000 (Except.error none)
      Pages.sampleEntry (by decide)).1 false (by decide)

/-- C5. Background prefetches never write to the visible view state: for every
state, page and remote outcome (hit, success or failure), a call with
`background = true` leaves the displayed rows, the pagination metadata, the
loading flags and the error slot of both pages untouched. -/
theorem background_fetch_preserves_view {ρ : Type} (s : CallLogs.State ρ)
    (t : AreaCodes.State ρ) (page now now2 : Int)
    (remote remote2 : Except (Option String) (Pages.RemoteResp ρ)) :
    CallLogs.visibleView (CallLogs.fetchCallLogs s page true now remote now2).state
      = CallLogs.visibleView s
  ∧ AreaCodes.visibleView (AreaCodes.fetchAreaCodes t page true now remote2 now2).state
      = AreaCodes.visibleView t := by
  constructor
  · simp only [CallLogs.fetchCallLogs]
    repeat' split
    all_goals simp_all [CallLogs.visibleView]
  · simp only [AreaCodes.fetchAreaCodes]
    repeat' split
    all_goals simp_all [AreaCodes.visibleView]

/-- C3. Starting from an empty cache, after any sequence of insertions through
the `setPageCache` updater the entry count never exceeds 50; and whenever an
insertion pushes the map past 50 entries, the entry evicted is the oldest
inserted one — the updated map is exactly the post-`set` map with its first
entry (in insertion order) removed. -/
theorem cache_eviction_bound {ρ : Type} :
    (∀ ops : List (String × Pages.CacheEntry ρ),
        (ops.foldl (fun m kv => Pages.cacheInsert m kv.1 kv.2) ([] : Pages.JsMap ρ)).length ≤ 50)
  ∧ (∀ (m : Pages.JsMap ρ) (k : String) (v : Pages.CacheEntry ρ),
        (Pages.jsSet m k v).length > 50 →
        Pages.cacheInsert m k v = (Pages.jsSet m k v).drop 1) := by
  constructor
  · have general : ∀ (ops : List (String × Pages.CacheEntry ρ)) (m : Pages.JsMap ρ),
        m.length ≤ 50 →
        (ops.foldl (fun m kv => Pages.cacheInsert m kv.1 kv.2) m).length ≤ 50 := by
      intro ops
      induction ops with
      | nil => intro m hm; simpa using hm
      | cons kv ops ih =>
        intro m hm
        exact ih _ (Pages.cacheInsert_length_le m kv.1 kv.2 hm)
    exact fun ops => general ops [] (by simp)
  · exact fun m k v h => Pages.cacheInsert_overflow m k v h

/-- Witness for C3: a single insertion stays within the bound, and inserting a
fresh key into a 51-entry cache evicts the head entry. -/
theorem cache_eviction_bound_witness :
    ((([("a", Pages.sampleEntry)] : List (String × Pages.CacheEntry Nat)).foldl
        (fun m kv => Pages.cacheInsert m kv.1 kv.2) ([] : Pages.JsMap Nat)).length ≤ 50)
  ∧ Pages.cacheInsert Pages.bigCache "fresh" Pages.sampleEntry
      = (Pages.jsSet Pages.bigCache "fresh" Pages.sampleEntry).drop 1 :=
  ⟨(@cache_eviction_bound Nat).1 [("a", Pages.sampleEntry)],
   (@cache_eviction_bound Nat).2 Pages.bigCache "fresh" Pages.sampleEntry (by decide)⟩

/-- C6 (amended). `prefetchPages` filters the candidates
`[current+1, current+2, current-1]` to the range `[1, totalPages]`, schedules a
background fetch exactly for the candidates whose cache key is absent, and
delays each scheduled fetch by `i * 100` ms where `i` is the candidate's
position in the range-filtered candidate list — cached candidates are skipped
but still consume a stagger slot. Proved for both the call-logs and the
area-codes page. -/
theorem prefetch_schedule_amended {ρ : Type} (ps : CallLogs.Params)
    (cache : Pages.JsMap ρ) (ps2 : AreaCodes.Params) (cache2 : Pages.JsMap ρ)
    (currentPage totalPages : Int) :
    ((CallLogs.prefetchPages ps cache currentPage totalPages).map Prod.fst
      = ([currentPage + 1, currentPage + 2, currentPage - 1].filter
          (fun page => decide (page > 0) && decide (page ≤ totalPages))).filter
          (fun page => !Pages.jsHas cache (CallLogs.getCacheKey ps page)))
  ∧ (∀ pr ∈ CallLogs.prefetchPages ps cache currentPage totalPages,
      ∃ i, ([currentPage + 1, currentPage + 2, currentPage - 1].filter
              (fun page => decide (page > 0) && decide (page ≤ totalPages))).get? i
            = some pr.1
        ∧ pr.2 = i * 100
        ∧ Pages.jsHas cache (CallLogs.getCacheKey ps pr.1) = false)
  ∧ ((AreaCodes.prefetchPages ps2 cache2 currentPage totalPages).map Prod.fst
      = ([currentPage + 1, currentPage + 2, currentPage - 1].filter
          (fun p => decide (p > 0) && decide (p ≤ totalPages))).filter
          (fun p => !Pages.jsHas cache2 (AreaCodes.getCacheKey ps2 p)))
  ∧ (∀ pr ∈ AreaCodes.prefetchPages ps2 cache2 currentPage totalPages,
      ∃ i, ([currentPage + 1, currentPage + 2, currentPage - 1].filter
              (fun p => decide (p > 0) && decide (p ≤ totalPages))).get? i
            = some pr.1
        ∧ pr.2 = i * 100
        ∧ Pages.jsHas cache2 (AreaCodes.getCacheKey ps2 pr.1) = false) := by
  refine ⟨?_, fun pr hpr => ?_, ?_, fun pr hpr => ?_⟩
  · exact Pages.sched_map_fst (fun p => Pages.jsHas cache (CallLogs.getCacheKey ps p)) _ 0
  · obtain ⟨i, h1, h2, h3⟩ :=
      Pages.sched_mem (fun p => Pages.jsHas cache (CallLogs.getCacheKey ps p)) _ 0 pr hpr
    exact ⟨i, h1, by omega, h3⟩
  · exact Pages.sched_map_fst (fun p => Pages.jsHas cache2 (AreaCodes.getCacheKey ps2 p)) _ 0
  · obtain ⟨i, h1, h2, h3⟩ :=
      Pages.sched_mem (fun p => Pages.jsHas cache2 (AreaCodes.getCacheKey ps2 p)) _ 0 pr hpr
    exact ⟨i, h1, by omega, h3⟩

/-- Counterexample to C6 as stated: at `currentPage = 2`, `totalPages = 4`
with page 4 already cached, the code schedules page 1 with delay 200 ms (its
candidate index is 2), while the claim's reading — the i-th scheduled
candidate delayed by `i * 100` ms — predicts 100 ms. -/
theorem prefetch_delay_counterexample :
    CallLogs.prefetchPages CallLogs.sampleParams CallLogs.cacheWithPage4 2 4
      = [(3, 0), (1, 200)]
  ∧ CallLogs.prefetchNeighborsClaim CallLogs.sampleParams CallLogs.cacheWithPage4 2 4
      = [(3, 0), (1, 100)]
  ∧ CallLogs.prefetchPages CallLogs.sampleParams CallLogs.cacheWithPage4 2 4
      ≠ CallLogs.prefetchNeighborsClaim CallLogs.sampleParams CallLogs.cacheWithPage4 2 4 := by
  decide

/-- Witness for C6 (amended) at `currentPage = 2`, `totalPages = 4` with page
4 cached: the scheduled pages are 3 and 1, and the scheduled pair `(1, 200)`
sits at index 2 of the candidate list. -/
theorem prefetch_schedule_amended_witness :
    ((CallLogs.prefetchPages CallLogs.sampleParams CallLogs.cacheWithPage4 2 4).map Prod.fst
      = ([(2 : Int) + 1, 2 + 2, 2 - 1].filter
          (fun page => decide (page > 0) && decide (page ≤ (4 : Int)))).filter
          (fun page => !Pages.jsHas CallLogs.cacheWithPage4
              (CallLogs.getCacheKey CallLogs.sampleParams page)))
  ∧ (∃ i, ([(2 : Int) + 1, 2 + 2, 2 - 1].filter
          (fun page => decide (page > 0) && decide (page ≤ (4 : Int)))).get? i
        = some (1 : Int)
      ∧ (200 : Nat) = i * 100
      ∧ Pages.jsHas CallLogs.cacheWithPage4
          (CallLogs.getCacheKey CallLogs.sampleParams 1) = false)
  ∧ (∃ i, ([(2 : Int) + 1, 2 + 2, 2 - 1].filter
          (fun p => decide (p > 0) && decide (p ≤ (4 : Int)))).get? i
        = some (3 : Int)
      ∧ (0 : Nat) = i * 100
      ∧ Pages.jsHas ([] : Pages.JsMap Nat)
          (AreaCodes.getCacheKey AreaCodes.sampleParams 3) = false) :=
  ⟨(prefetch_schedule_amended CallLogs.sampleParams CallLogs.cacheWithPage4
      AreaCodes.sampleParams [] 2 4).1,
   (prefetch_schedule_amended CallLogs.sampleParams CallLogs.cacheWithPage4
      AreaCodes.sampleParams [] 2 4).2.1 (1, 200) (by decide),
   (prefetch_schedule_amended CallLogs.sampleParams CallLogs.cacheWithPage4
      AreaCodes.sampleParams [] 2 4).2.2.2 (3, 0) (by decide)⟩

/-- C9. The claim says every foreground fetch failure clears the loading
indicator. `fetchCallLogs` does (its `catch` clears `isInitialLoading`), but
`fetchAreaCodes` — written to "match CallLogsPage behavior" — does not: its
`catch` only writes the error message, its `finally` clears only `isLoading`
(a flag the page never sets to `true`), and `isInitialLoading`, the flag that
drives the page's spinner, stays `true` after a failed foreground fetch from
an empty page. Background failures are swallowed on both pages. -/
theorem area_codes_error_leaves_loading :
    (AreaCodes.fetchAreaCodes AreaCodes.emptyState 1 false 0
        (Except.error none) 0).state.errorSlot = some "Failed to load area code data"
  ∧ (AreaCodes.fetchAreaCodes AreaCodes.emptyState 1 false 0
        (Except.error none) 0).state.isInitialLoading = true
  ∧ (AreaCodes.fetchAreaCodes AreaCodes.emptyState 1 false 0
        (Except.error none) 0).result = none
  ∧ (CallLogs.fetchCallLogs CallLogs.emptyState 1 false 0
        (Except.error none) 0).state.errorSlot = some "Failed to fetch call logs"
  ∧ (CallLogs.fetchCallLogs CallLogs.emptyState 1 false 0
        (Except.error none) 0).state.isInitialLoading = false
  ∧ (AreaCodes.fetchAreaCodes AreaCodes.emptyState 1 true 0
        (Except.error none) 0).state = AreaCodes.emptyState
  ∧ (AreaCodes.fetchAreaCodes AreaCodes.emptyState 1 true 0
        (Except.error none) 0).result = none
  ∧ (CallLogs.fetchCallLogs CallLogs.emptyState 1 true 0
        (Except.error none) 0).state = CallLogs.emptyState
  ∧ (CallLogs.fetchCallLogs CallLogs.emptyState 1 true 0
        (Except.error none) 0).result = none := by
  decide
